import Mathlib

/-!
Verification of the swarm_star repository core against its specification.

Shallow embedding of the Python sources:
  * `src/swarmstar/core.py`                       — operation dispatcher
  * `src/swarmstar/abstract/metadata_tree.py`     — portal clone
  * `src/aga_swarm/actions/swarm/action_types/action.py` — action resolver
  * `src/swarmstar/types/swarm_operations.py`     — operation model (pydantic)
  * `src/scripts/create_sqlite3_db.py`            — sqlite3 key-value store

Python exceptions are modelled with `Except`; a raised exception is an
`Except.error` carrying the exception kind and its message string.
-/

namespace SwarmStar

/-- Python exception values that the embedded code can raise.  Messages are
the source format strings with the interpolations spelled out. -/
inductive PyError where
  | valueError (msg : String)
  | keyError (msg : String)
  | attributeError (msg : String)
  | unboundLocalError (msg : String)
  | typeError (msg : String)
  deriving DecidableEq, Repr

/-! ## Operation model — `src/swarmstar/types/swarm_operations.py`

`SwarmOperation.operation_type` is the `Literal` union
`{"spawn", "terminate", "node_failure", "blocking", "user_communication",
"action"}`; we embed it as an enumeration together with its string form
(the value Python stores and prints). -/

inductive OperationType where
  | spawn
  | terminate
  | node_failure
  | blocking
  | user_communication
  | action
  deriving DecidableEq, Repr

/-- The string carried by `operation_type` in the Python model; used when the
dispatcher interpolates it into an error message. -/
def OperationType.str : OperationType → String
  | .spawn => "spawn"
  | .terminate => "terminate"
  | .node_failure => "node_failure"
  | .blocking => "blocking"
  | .user_communication => "user_communication"
  | .action => "action"

/-- A `SwarmOperation` as the dispatcher sees it: the dispatcher in
`core.py` reads only `operation_type` and passes the operation through to a
handler unchanged, so the remaining per-variant fields are abstracted into
an opaque payload string (`id` and variant data). -/
structure SwarmOperation where
  id : String
  operation_type : OperationType
  deriving DecidableEq, Repr

/-! ## Operation dispatcher — `src/swarmstar/core.py`

The four handlers (`spawn`, `blocking`, `terminate`, `failure`) are imported
from `swarmstar.utils.swarm_operations.*`, which is not part of the sources;
the dispatcher is therefore parametrised over them.  A Python handler may
return `None`, a single operation, a tuple or a list; `HandlerOutput`
enumerates those shapes. -/

inductive HandlerOutput where
  | noneV
  | single (op : SwarmOperation)
  | tupleV (ops : List SwarmOperation)
  | listV (ops : List SwarmOperation)
  deriving DecidableEq, Repr

/-- The handler bundle the dispatcher closes over (`Cfg` is the opaque
`SwarmConfig`). -/
structure Handlers (Cfg : Type) where
  spawn : Cfg → SwarmOperation → HandlerOutput
  blocking : Cfg → SwarmOperation → HandlerOutput
  terminate : Cfg → SwarmOperation → HandlerOutput
  failure : Cfg → SwarmOperation → HandlerOutput

/-- `operation_mapping` of `core.py` lines 32–37: the dict literal keyed by
the four handled operation-type strings.  `none` models absence from the
dict (`not in operation_mapping`). -/
def operation_mapping {Cfg : Type} (h : Handlers Cfg) :
    OperationType → Option (Cfg → SwarmOperation → HandlerOutput)
  | .spawn => some h.spawn
  | .blocking => some h.blocking
  | .terminate => some h.terminate
  | .node_failure => some h.failure
  | .user_communication => none
  | .action => none

/-- Lines 47–52 of `core.py`: a tuple is converted with `list(...)`, then
anything that is neither a list nor `None` is wrapped in a singleton list;
`None` is returned as is (the function is annotated
`Union[List[SwarmOperation], None]`). -/
def normalize_output : HandlerOutput → Option (List SwarmOperation)
  | .tupleV ops => some ops
  | .listV ops => some ops
  | .single op => some [op]
  | .noneV => none

/-- `execute_swarmstar_operation` (`core.py` lines 25–52). -/
def execute_swarmstar_operation {Cfg : Type} (h : Handlers Cfg)
    (swarm_config : Cfg) (swarm_operation : SwarmOperation) :
    Except PyError (Option (List SwarmOperation)) :=
  match operation_mapping h swarm_operation.operation_type with
  | some handler =>
      Except.ok (normalize_output (handler swarm_config swarm_operation))
  | none =>
      Except.error (.valueError
        ("Unknown swarm operation type: " ++ swarm_operation.operation_type.str))

end SwarmStar

namespace SwarmStar

/-! ### Dispatcher theorems -/

/-- Unfolding lemma shared by the dispatcher claims: when the operation type
is in `operation_mapping`, the dispatcher returns the normalised output of
that handler. -/
theorem execute_eq_normalize {Cfg : Type} (h : Handlers Cfg) (cfg : Cfg)
    (op : SwarmOperation) (f : Cfg → SwarmOperation → HandlerOutput)
    (hf : operation_mapping h op.operation_type = some f) :
    execute_swarmstar_operation h cfg op =
      Except.ok (normalize_output (f cfg op)) := by
  unfold execute_swarmstar_operation
  rw [hf]

/-- Unfolding lemma: when the operation type is not in `operation_mapping`,
the dispatcher raises `ValueError` naming the type. -/
theorem execute_eq_error {Cfg : Type} (h : Handlers Cfg) (cfg : Cfg)
    (op : SwarmOperation)
    (hf : operation_mapping h op.operation_type = none) :
    execute_swarmstar_operation h cfg op =
      Except.error (.valueError
        ("Unknown swarm operation type: " ++ op.operation_type.str)) := by
  unfold execute_swarmstar_operation
  rw [hf]

/-- Whether an operation type is absent from `operation_mapping` depends
only on the type, never on the handler bundle. -/
theorem operation_mapping_none_iff {Cfg : Type} (h : Handlers Cfg)
    (t : OperationType) :
    operation_mapping h t = none ↔
      (t = .user_communication ∨ t = .action) := by
  cases t <;> simp [operation_mapping]

/-- Concrete fixtures for witnesses: a handler bundle whose four handlers
all return the given output, and a sample operation of each relevant type. -/
def constHandlers (o : HandlerOutput) : Handlers Unit :=
  { spawn := fun _ _ => o, blocking := fun _ _ => o,
    terminate := fun _ _ => o, failure := fun _ _ => o }

def sampleSpawnOp : SwarmOperation := { id := "op0", operation_type := .spawn }

def sampleUserCommOp : SwarmOperation :=
  { id := "op1", operation_type := .user_communication }

def sampleActionOp : SwarmOperation := { id := "op2", operation_type := .action }

/-- C1 (amended): for every operation whose `operation_type` has a handler in
`operation_mapping`, `execute_swarmstar_operation` returns the handler's
output normalised as: `None` → `None` (not the empty list), a single
operation → a one-element list, a tuple or a list → the list of its
elements in order. -/
theorem claim_C1_normalization {Cfg : Type} (h : Handlers Cfg) (cfg : Cfg)
    (op : SwarmOperation) (f : Cfg → SwarmOperation → HandlerOutput)
    (hf : operation_mapping h op.operation_type = some f) :
    (f cfg op = .noneV →
      execute_swarmstar_operation h cfg op = Except.ok none) ∧
    (∀ o, f cfg op = .single o →
      execute_swarmstar_operation h cfg op = Except.ok (some [o])) ∧
    (∀ l, f cfg op = .tupleV l →
      execute_swarmstar_operation h cfg op = Except.ok (some l)) ∧
    (∀ l, f cfg op = .listV l →
      execute_swarmstar_operation h cfg op = Except.ok (some l)) := by
  refine ⟨?_, ?_, ?_, ?_⟩ <;>
    first
      | (intro hout
         rw [execute_eq_normalize h cfg op f hf, hout]
         rfl)
      | (intro x hout
         rw [execute_eq_normalize h cfg op f hf, hout]
         rfl)

/-- Witness for C1: with handlers that return a single operation, dispatching
a spawn operation yields the one-element list containing it. -/
theorem claim_C1_normalization_witness :
    execute_swarmstar_operation (constHandlers (.single sampleSpawnOp)) ()
      sampleSpawnOp = Except.ok (some [sampleSpawnOp]) :=
  (claim_C1_normalization (constHandlers (.single sampleSpawnOp)) ()
    sampleSpawnOp (fun _ _ => .single sampleSpawnOp) rfl).2.1
    sampleSpawnOp rfl

/-- C1, the claim as written is false on the code: a handler return of `None`
yields `None`, not the empty list — `core.py` lines 47–52 wrap only non-list,
non-`None` outputs and return `None` unchanged, matching the annotation
`Union[List[SwarmOperation], None]`. -/
theorem claim_C1_counterexample :
    execute_swarmstar_operation (constHandlers .noneV) () sampleSpawnOp =
        Except.ok none ∧
      execute_swarmstar_operation (constHandlers .noneV) () sampleSpawnOp ≠
        Except.ok (some ([] : List SwarmOperation)) := by
  constructor
  · rfl
  · intro hcontra
    simp [execute_swarmstar_operation, operation_mapping, constHandlers,
      sampleSpawnOp, normalize_output] at hcontra

/-- C2: for every operation whose `operation_type` is not a key of
`operation_mapping`, the dispatcher raises `ValueError` naming the type
immediately; the result does not depend on the handler bundle at all
(no handler is invoked), and the single raise is the entire behaviour
(no retry path exists). -/
theorem claim_C2_unknown_type_fatal {Cfg : Type} (h h' : Handlers Cfg)
    (cfg : Cfg) (op : SwarmOperation)
    (hf : operation_mapping h op.operation_type = none) :
    execute_swarmstar_operation h cfg op =
        Except.error (.valueError
          ("Unknown swarm operation type: " ++ op.operation_type.str)) ∧
      execute_swarmstar_operation h cfg op =
        execute_swarmstar_operation h' cfg op := by
  have hf' : operation_mapping h' op.operation_type = none := by
    rw [operation_mapping_none_iff]
    exact (operation_mapping_none_iff h op.operation_type).mp hf
  exact ⟨execute_eq_error h cfg op hf,
    (execute_eq_error h cfg op hf).trans (execute_eq_error h' cfg op hf').symm⟩

/-- Witness for C2: dispatching a `user_communication` operation raises the
unknown-type `ValueError`, whatever the handlers are. -/
theorem claim_C2_unknown_type_fatal_witness :
    execute_swarmstar_operation (constHandlers .noneV) () sampleUserCommOp =
        Except.error (.valueError
          "Unknown swarm operation type: user_communication") ∧
      execute_swarmstar_operation (constHandlers .noneV) () sampleUserCommOp =
        execute_swarmstar_operation (constHandlers (.single sampleSpawnOp)) ()
          sampleUserCommOp :=
  claim_C2_unknown_type_fatal (constHandlers .noneV)
    (constHandlers (.single sampleSpawnOp)) () sampleUserCommOp rfl

/-- C9: `user_communication` and `action` are members of the declared
`operation_type` union, yet `operation_mapping` covers only `spawn`,
`blocking`, `terminate` and `node_failure`, so dispatching either raises
the unknown-operation-type error. -/
theorem claim_C9_union_members_unhandled {Cfg : Type} (h : Handlers Cfg)
    (cfg : Cfg) (op : SwarmOperation)
    (ht : op.operation_type = .user_communication ∨
      op.operation_type = .action) :
    execute_swarmstar_operation h cfg op =
      Except.error (.valueError
        ("Unknown swarm operation type: " ++ op.operation_type.str)) := by
  apply execute_eq_error
  rw [operation_mapping_none_iff]
  exact ht

/-- Witness for C9: dispatching an `action` operation raises the
unknown-type error. -/
theorem claim_C9_union_members_unhandled_witness :
    execute_swarmstar_operation (constHandlers .noneV) () sampleActionOp =
      Except.error (.valueError "Unknown swarm operation type: action") :=
  claim_C9_union_members_unhandled (constHandlers .noneV) () sampleActionOp
    (Or.inr rfl)

/-! ## Portal clone — `src/swarmstar/abstract/metadata_tree.py`

A metadata-tree node is the record `{id, type, children_ids, ...}`; the
shared (internal) store `get_internal_sqlite` is a partial map from id to
node.  `portal_clone` walks the shared tree from the node with id `"root"`;
at each node it inserts a shadow copy keyed `{swarm_id}_{node_id}` into the
instance-local store iff `type == "portal"`, then recurses into every id of
`children_ids`, fetching each child from the shared store.

The Python recursion has no termination guard, so the embedding takes a
fuel parameter; `none` models a run that does not complete normally (fuel
exhausted, i.e. the tree is deeper than the bound, or a fetch failed).
The value of a completed run is the ordered trace of `db.insert` calls. -/

structure MetadataNode where
  id : String
  type : String
  children_ids : List String
  deriving DecidableEq, Repr

mutual

/-- `recursive_helper` (`metadata_tree.py` lines 31–38): the insert trace of
the walk rooted at `node`. -/
def recursive_helper (store : String → Option MetadataNode)
    (swarm_id : String) :
    Nat → MetadataNode → Option (List (String × MetadataNode))
  | 0, _ => none
  | fuel + 1, node =>
    match recursive_children store swarm_id fuel node.children_ids with
    | none => none
    | some rest =>
      some ((if node.type = "portal"
        then [(swarm_id ++ "_" ++ node.id, node)] else []) ++ rest)

/-- The `for child_id in node["children_ids"]` loop of lines 36–38: fetch
each child from the shared store and walk it, in order. -/
def recursive_children (store : String → Option MetadataNode)
    (swarm_id : String) :
    Nat → List String → Option (List (String × MetadataNode))
  | _, [] => some []
  | fuel, child_id :: rest =>
    match store child_id with
    | none => none
    | some child =>
      match recursive_helper store swarm_id fuel child with
      | none => none
      | some l1 =>
        match recursive_children store swarm_id fuel rest with
        | none => none
        | some l2 => some (l1 ++ l2)

end

/-- `portal_clone` (lines 14–40): fetch the internal root node (id
`"root"`) and walk it. -/
def portal_clone (store : String → Option MetadataNode) (swarm_id : String)
    (fuel : Nat) : Option (List (String × MetadataNode)) :=
  match store "root" with
  | none => none
  | some node => recursive_helper store swarm_id fuel node

mutual

/-- Spec-side description of the traversal: the ordered list of nodes the
walk visits — the root first, then, for every visited node, the subtrees of
every id in its `children_ids`, each fetched from the shared store. -/
def visited_nodes (store : String → Option MetadataNode) :
    Nat → MetadataNode → Option (List MetadataNode)
  | 0, _ => none
  | fuel + 1, node =>
    match visited_children store fuel node.children_ids with
    | none => none
    | some rest => some (node :: rest)

def visited_children (store : String → Option MetadataNode) :
    Nat → List String → Option (List MetadataNode)
  | _, [] => some []
  | fuel, child_id :: rest =>
    match store child_id with
    | none => none
    | some child =>
      match visited_nodes store fuel child with
      | none => none
      | some l1 =>
        match visited_children store fuel rest with
        | none => none
        | some l2 => some (l1 ++ l2)

end

/-- The visited nodes of a full clone run, starting at the shared root. -/
def portal_clone_visits (store : String → Option MetadataNode) (fuel : Nat) :
    Option (List MetadataNode) :=
  match store "root" with
  | none => none
  | some node => visited_nodes store fuel node

/-- The shadow copies the spec predicts for a visit list: one per visited
node of type `"portal"`, keyed `{swarm_id}_{node_id}`, nothing for any
other node. -/
def portal_inserts (swarm_id : String) (vs : List MetadataNode) :
    List (String × MetadataNode) :=
  (vs.filter (fun nd => nd.type = "portal")).map
    (fun nd => (swarm_id ++ "_" ++ nd.id, nd))

/-- The instance-local store is append-only under `db.insert`
(`metadata_tree.py` line 34), so the effect of a completed clone on a local
store `db` is appending the insert trace; the traversal never reads `db`. -/
def portal_clone_db (store : String → Option MetadataNode) (swarm_id : String)
    (fuel : Nat) (db : List (String × MetadataNode)) :
    Option (List (String × MetadataNode)) :=
  (portal_clone store swarm_id fuel).map (fun ins => db ++ ins)

theorem portal_inserts_nil (swarm_id : String) :
    portal_inserts swarm_id [] = [] := rfl

theorem portal_inserts_cons (swarm_id : String) (nd : MetadataNode)
    (vs : List MetadataNode) :
    portal_inserts swarm_id (nd :: vs) =
      (if nd.type = "portal" then [(swarm_id ++ "_" ++ nd.id, nd)] else []) ++
        portal_inserts swarm_id vs := by
  by_cases hp : nd.type = "portal" <;>
    simp [portal_inserts, List.filter_cons, hp]

theorem portal_inserts_append (swarm_id : String)
    (vs ws : List MetadataNode) :
    portal_inserts swarm_id (vs ++ ws) =
      portal_inserts swarm_id vs ++ portal_inserts swarm_id ws := by
  simp [portal_inserts, List.filter_append]

/-! Unfolding equations for the fuelled walks (the definitions are compiled
by well-founded recursion, so their equations are restated as lemmas). -/

theorem recursive_helper_zero (store : String → Option MetadataNode)
    (s : String) (node : MetadataNode) :
    recursive_helper store s 0 node = none := by
  simp [recursive_helper]

theorem recursive_helper_succ (store : String → Option MetadataNode)
    (s : String) (fuel : Nat) (node : MetadataNode) :
    recursive_helper store s (fuel + 1) node =
      match recursive_children store s fuel node.children_ids with
      | none => none
      | some rest =>
        some ((if node.type = "portal"
          then [(s ++ "_" ++ node.id, node)] else []) ++ rest) := by
  simp only [recursive_helper]

theorem recursive_children_nil (store : String → Option MetadataNode)
    (s : String) (fuel : Nat) :
    recursive_children store s fuel [] = some [] := by
  simp [recursive_children]

theorem recursive_children_cons (store : String → Option MetadataNode)
    (s : String) (fuel : Nat) (c : String) (cs : List String) :
    recursive_children store s fuel (c :: cs) =
      match store c with
      | none => none
      | some child =>
        match recursive_helper store s fuel child with
        | none => none
        | some l1 =>
          match recursive_children store s fuel cs with
          | none => none
          | some l2 => some (l1 ++ l2) := by
  simp only [recursive_children]

theorem visited_nodes_zero (store : String → Option MetadataNode)
    (node : MetadataNode) : visited_nodes store 0 node = none := by
  simp [visited_nodes]

theorem visited_nodes_succ (store : String → Option MetadataNode)
    (fuel : Nat) (node : MetadataNode) :
    visited_nodes store (fuel + 1) node =
      match visited_children store fuel node.children_ids with
      | none => none
      | some rest => some (node :: rest) := by
  simp only [visited_nodes]

theorem visited_children_nil (store : String → Option MetadataNode)
    (fuel : Nat) : visited_children store fuel [] = some [] := by
  simp [visited_children]

theorem visited_children_cons (store : String → Option MetadataNode)
    (fuel : Nat) (c : String) (cs : List String) :
    visited_children store fuel (c :: cs) =
      match store c with
      | none => none
      | some child =>
        match visited_nodes store fuel child with
        | none => none
        | some l1 =>
          match visited_children store fuel cs with
          | none => none
          | some l2 => some (l1 ++ l2) := by
  simp only [visited_children]

theorem recursive_children_cons_some (store : String → Option MetadataNode)
    (s : String) (fuel : Nat) (c : String) (cs : List String)
    (child : MetadataNode) (hsc : store c = some child) :
    recursive_children store s fuel (c :: cs) =
      match recursive_helper store s fuel child with
      | none => none
      | some l1 =>
        match recursive_children store s fuel cs with
        | none => none
        | some l2 => some (l1 ++ l2) := by
  rw [recursive_children_cons, hsc]

theorem recursive_children_cons_none (store : String → Option MetadataNode)
    (s : String) (fuel : Nat) (c : String) (cs : List String)
    (hsc : store c = none) :
    recursive_children store s fuel (c :: cs) = none := by
  rw [recursive_children_cons, hsc]

theorem visited_children_cons_some (store : String → Option MetadataNode)
    (fuel : Nat) (c : String) (cs : List String)
    (child : MetadataNode) (hsc : store c = some child) :
    visited_children store fuel (c :: cs) =
      match visited_nodes store fuel child with
      | none => none
      | some l1 =>
        match visited_children store fuel cs with
        | none => none
        | some l2 => some (l1 ++ l2) := by
  rw [visited_children_cons, hsc]

theorem visited_children_cons_none (store : String → Option MetadataNode)
    (fuel : Nat) (c : String) (cs : List String)
    (hsc : store c = none) :
    visited_children store fuel (c :: cs) = none := by
  rw [visited_children_cons, hsc]

/-- Joint refinement: the insert trace of the walk is exactly the
portal-filtered, key-mapped visit list, at every fuel. -/
theorem recursive_helper_eq_portal_inserts
    (store : String → Option MetadataNode) (swarm_id : String) :
    ∀ fuel : Nat,
      (∀ node, recursive_helper store swarm_id fuel node =
        (visited_nodes store fuel node).map (portal_inserts swarm_id)) ∧
      (∀ ids, recursive_children store swarm_id fuel ids =
        (visited_children store fuel ids).map (portal_inserts swarm_id)) := by
  intro fuel
  induction fuel with
  | zero =>
    have hz : ∀ node, recursive_helper store swarm_id 0 node =
        (visited_nodes store 0 node).map (portal_inserts swarm_id) := by
      intro node
      rw [recursive_helper_zero, visited_nodes_zero]
      rfl
    refine ⟨hz, fun ids => ?_⟩
    induction ids with
    | nil => rw [recursive_children_nil, visited_children_nil]; rfl
    | cons c cs ih =>
      cases hsc : store c with
      | none =>
        rw [recursive_children_cons_none store swarm_id 0 c cs hsc,
          visited_children_cons_none store 0 c cs hsc]
        rfl
      | some child =>
        rw [recursive_children_cons_some store swarm_id 0 c cs child hsc,
          visited_children_cons_some store 0 c cs child hsc,
          hz child, visited_nodes_zero]
        rfl
  | succ n ihn =>
    have hHelp : ∀ node, recursive_helper store swarm_id (n + 1) node =
        (visited_nodes store (n + 1) node).map (portal_inserts swarm_id) := by
      intro node
      rw [recursive_helper_succ, visited_nodes_succ, ihn.2 node.children_ids]
      cases visited_children store n node.children_ids with
      | none => rfl
      | some rest => simp [portal_inserts_cons]
    refine ⟨hHelp, fun ids => ?_⟩
    induction ids with
    | nil => rw [recursive_children_nil, visited_children_nil]; rfl
    | cons c cs ih =>
      cases hsc : store c with
      | none =>
        rw [recursive_children_cons_none store swarm_id (n + 1) c cs hsc,
          visited_children_cons_none store (n + 1) c cs hsc]
        rfl
      | some child =>
        rw [recursive_children_cons_some store swarm_id (n + 1) c cs child hsc,
          visited_children_cons_some store (n + 1) c cs child hsc,
          hHelp child, ih]
        cases visited_nodes store (n + 1) child with
        | none => rfl
        | some l1 =>
          cases visited_children store (n + 1) cs with
          | none => rfl
          | some l2 => simp [portal_inserts_append]

/-- C3: a completed `portal_clone` run inserts into the instance-local store
exactly one shadow copy, keyed `{swarm_id}_{node_id}`, for each visited node
of type `"portal"` and nothing for any other node; the visit list starts at
the shared root and recurses, per node, into every id of `children_ids`
fetched from the shared store (the definition of `visited_nodes`). -/
theorem claim_C3_portal_clone_shadow_copies
    (store : String → Option MetadataNode) (swarm_id : String) (fuel : Nat)
    (ins : List (String × MetadataNode))
    (h : portal_clone store swarm_id fuel = some ins) :
    ∃ root vs, store "root" = some root ∧
      visited_nodes store fuel root = some vs ∧
      vs.head? = some root ∧
      ins = portal_inserts swarm_id vs := by
  cases hroot : store "root" with
  | none =>
    unfold portal_clone at h
    rw [hroot] at h
    exact absurd h (by simp)
  | some root =>
    have h' : recursive_helper store swarm_id fuel root = some ins := by
      unfold portal_clone at h
      rw [hroot] at h
      exact h
    rw [(recursive_helper_eq_portal_inserts store swarm_id fuel).1 root] at h'
    cases hv : visited_nodes store fuel root with
    | none => rw [hv] at h'; exact absurd h' (by simp)
    | some vs =>
      rw [hv] at h'
      refine ⟨root, vs, rfl, hv, ?_, by simpa using h'.symm⟩
      cases fuel with
      | zero => exact absurd hv (by simp [visited_nodes_zero])
      | succ n =>
        rw [visited_nodes_succ] at hv
        cases hc : visited_children store n root.children_ids with
        | none => rw [hc] at hv; exact absurd hv (by simp)
        | some rest =>
          rw [hc] at hv
          simp only [Option.some.injEq] at hv
          simp [← hv]

/-- The whole clone, phrased through the visit list. -/
theorem portal_clone_eq_visits (store : String → Option MetadataNode)
    (s : String) (fuel : Nat) :
    portal_clone store s fuel =
      (portal_clone_visits store fuel).map (portal_inserts s) := by
  unfold portal_clone portal_clone_visits
  cases store "root" with
  | none => rfl
  | some root => exact (recursive_helper_eq_portal_inserts store s fuel).1 root

/-- A four-node sample of the shared tree: a non-portal root with children
`a` (portal) and `b` (non-portal), `b` having the portal child `c`. -/
def nodeRoot : MetadataNode :=
  { id := "root", type := "folder", children_ids := ["a", "b"] }

def nodeA : MetadataNode := { id := "a", type := "portal", children_ids := [] }

def nodeB : MetadataNode :=
  { id := "b", type := "folder", children_ids := ["c"] }

def nodeC : MetadataNode := { id := "c", type := "portal", children_ids := [] }

def sampleTreeStore : String → Option MetadataNode := fun i =>
  if i = "root" then some nodeRoot
  else if i = "a" then some nodeA
  else if i = "b" then some nodeB
  else if i = "c" then some nodeC
  else none

/-- Evaluation of the clone on the sample tree: the two portal nodes and
nothing else are copied, keyed by the instance id. -/
theorem portal_clone_sample_eval :
    portal_clone sampleTreeStore "s1" 3 =
      some [("s1_a", nodeA), ("s1_c", nodeC)] := by
  simp [portal_clone, sampleTreeStore, nodeRoot, nodeA, nodeB, nodeC,
    recursive_helper_succ, recursive_children_cons, recursive_children_nil,
    recursive_helper_zero]

/-- Witness for C3: the sample clone's inserts are the portal-filtered visit
list, with the non-portal root visited first. -/
theorem claim_C3_portal_clone_shadow_copies_witness :
    ∃ root vs, sampleTreeStore "root" = some root ∧
      visited_nodes sampleTreeStore 3 root = some vs ∧
      vs.head? = some root ∧
      [("s1_a", nodeA), ("s1_c", nodeC)] = portal_inserts "s1" vs :=
  claim_C3_portal_clone_shadow_copies sampleTreeStore "s1" 3
    [("s1_a", nodeA), ("s1_c", nodeC)] portal_clone_sample_eval

/-- C4: `portal_clone` is not idempotent.  The walk never reads the
instance-local store: a completed run appends its insert trace — one entry
per visited portal node — to whatever the local store already holds, so a
second invocation for the same swarm instance id re-inserts every portal
node unconditionally, with no check for an existing `{swarm_id}_{node_id}`
shadow copy, and the doubly-cloned store differs from the singly-cloned one
whenever at least one portal node exists. -/
theorem claim_C4_portal_clone_not_idempotent
    (store : String → Option MetadataNode) (s : String) (fuel : Nat)
    (db ins : List (String × MetadataNode))
    (h : portal_clone store s fuel = some ins) :
    portal_clone_db store s fuel db = some (db ++ ins) ∧
    portal_clone_db store s fuel (db ++ ins) = some ((db ++ ins) ++ ins) ∧
    (ins ≠ [] → (db ++ ins) ++ ins ≠ db ++ ins) ∧
    (∀ vs, portal_clone_visits store fuel = some vs →
      ins = portal_inserts s vs) := by
  refine ⟨by simp [portal_clone_db, h], by simp [portal_clone_db, h],
    ?_, ?_⟩
  · intro hne heq
    have hlen := congrArg List.length heq
    simp only [List.length_append] at hlen
    have h0 : ins.length = 0 := by omega
    exact hne (List.eq_nil_of_length_eq_zero h0)
  · intro vs hvs
    rw [portal_clone_eq_visits, hvs] at h
    simpa using h.symm

/-- Witness for C4: on the sample tree, cloning twice appends the two portal
shadow copies twice, and the result differs from cloning once. -/
theorem claim_C4_portal_clone_not_idempotent_witness :
    portal_clone_db sampleTreeStore "s1" 3 [] =
        some ([] ++ [("s1_a", nodeA), ("s1_c", nodeC)]) ∧
      portal_clone_db sampleTreeStore "s1" 3
          ([] ++ [("s1_a", nodeA), ("s1_c", nodeC)]) =
        some (([] ++ [("s1_a", nodeA), ("s1_c", nodeC)]) ++
          [("s1_a", nodeA), ("s1_c", nodeC)]) ∧
      ([("s1_a", nodeA), ("s1_c", nodeC)] ≠
          ([] : List (String × MetadataNode)) →
        ([] ++ [("s1_a", nodeA), ("s1_c", nodeC)]) ++
            [("s1_a", nodeA), ("s1_c", nodeC)] ≠
          [] ++ [("s1_a", nodeA), ("s1_c", nodeC)]) ∧
      (∀ vs, portal_clone_visits sampleTreeStore 3 = some vs →
        [("s1_a", nodeA), ("s1_c", nodeC)] = portal_inserts "s1" vs) :=
  claim_C4_portal_clone_not_idempotent sampleTreeStore "s1" 3 []
    [("s1_a", nodeA), ("s1_c", nodeC)] portal_clone_sample_eval

/-! ## Action resolver — `src/aga_swarm/actions/swarm/action_types/action.py`

`action(action_id, params, swarm_id)` reads the per-action
`required_configs` list from the action-space metadata (an external lookup,
parametrised here), pulls each key with `getattr(swarm_id.configs, config)`,
and then runs the module-import block of lines 27–38.  Line 28,
`action_type = action_type.replace(...)`, reads the local `action_type`
before any assignment to it, which in Python raises `UnboundLocalError` at
that statement. -/

/-- The outcome of `getattr(swarm_id.configs, config)`: the attribute may be
absent, present with value `None`, or present with a value. -/
inductive AttrResult where
  | missing
  | noneValue
  | value (v : String)
  deriving DecidableEq, Repr

structure ActionMetadata where
  required_configs : List String
  deriving DecidableEq, Repr

/-- The message string of a raised exception. -/
def PyError.msg : PyError → String
  | .valueError m => m
  | .keyError m => m
  | .attributeError m => m
  | .unboundLocalError m => m
  | .typeError m => m

/-- The `for config in required_configs` loop of `action.py` lines 19–25.
An absent attribute raises `AttributeError` from `getattr` itself (the
`except` clause catches only `KeyError`); Python's runtime message names the
attribute, rendered here without its quoting.  A `None` value raises
`KeyError` inside the `try`, which the `except` re-raises with the
formatted message of line 25. -/
def config_loop (configs : String → AttrResult) :
    List String → (String → Option String) →
      Except PyError (String → Option String)
  | [], params => .ok params
  | c :: rest, params =>
    match configs c with
    | .missing => .error (.attributeError ("object has no attribute " ++ c))
    | .noneValue => .error (.keyError
        ("Config " ++ c ++ " not found in swarm configs or value is None"))
    | .value v =>
        config_loop configs rest (fun k => if k = c then some v else params k)

/-- Line 35 of `action.py`: the error the missing-entry-point branch would
raise.  Its message is a constant; it does not mention the action id. -/
def no_main_function_error : PyError :=
  .attributeError "No main function found in the script"

/-- `action` (`action.py` lines 6–38).  After the configuration loop, the
first statement of the import block reads the unassigned local
`action_type` (line 28), so execution always raises `UnboundLocalError`
there; lines 29–38, including the `hasattr(action, 'main')` check and
`no_main_function_error`, are unreachable. -/
def action (action_space_metadata : String → ActionMetadata)
    (configs : String → AttrResult) (action_id : String)
    (params : String → Option String) :
    Except PyError (String → Option String) :=
  match config_loop configs
      (action_space_metadata action_id).required_configs params with
  | .error e => .error e
  | .ok _ => .error (.unboundLocalError
      "local variable action_type referenced before assignment")

/-- `e` names the key `k`: `k` occurs verbatim in the message. -/
def names_key (e : PyError) (k : String) : Prop :=
  ∃ pre post, e.msg = pre ++ k ++ post

/-- A required key whose attribute is absent or `None` makes the
configuration loop fail with an error naming the first such key. -/
theorem config_loop_bad_key (configs : String → AttrResult) :
    ∀ (l : List String) (params : String → Option String) (c : String),
      c ∈ l → (configs c = .missing ∨ configs c = .noneValue) →
      ∃ e c', config_loop configs l params = .error e ∧ c' ∈ l ∧
        (configs c' = .missing ∨ configs c' = .noneValue) ∧
        names_key e c' := by
  intro l
  induction l with
  | nil => intro params c hc; exact absurd hc (List.not_mem_nil c)
  | cons c0 rest ih =>
    intro params c hc hbad
    cases h0 : configs c0 with
    | missing =>
      refine ⟨.attributeError ("object has no attribute " ++ c0), c0,
        ?_, List.mem_cons_self c0 rest, Or.inl h0,
        "object has no attribute ", "", by simp [PyError.msg]⟩
      simp [config_loop, h0]
    | noneValue =>
      refine ⟨.keyError
        ("Config " ++ c0 ++ " not found in swarm configs or value is None"),
        c0, ?_, List.mem_cons_self c0 rest, Or.inr h0,
        "Config ", " not found in swarm configs or value is None",
        by simp [PyError.msg]⟩
      simp [config_loop, h0]
    | value v =>
      have hc' : c ∈ rest := by
        rcases List.mem_cons.mp hc with hceq | hcr
        · subst hceq
          rcases hbad with hb | hb <;> rw [h0] at hb <;> exact absurd hb (by simp)
        · exact hcr
      obtain ⟨e, c', he, hc'', hbad', hn⟩ :=
        ih (fun k => if k = c0 then some v else params k) c hc' hbad
      exact ⟨e, c', by simp [config_loop, h0, he], List.mem_cons_of_mem c0 hc'',
        hbad', hn⟩

/-- C5: for every action id, if any required configuration key is absent
from the swarm configuration or has no value, `action` raises a fatal error
— the `KeyError` of line 25 or the uncaught `AttributeError` from `getattr`
— whose message names a missing key, and the error comes out of the
configuration loop, which precedes the entry-point block of lines 27–38. -/
theorem claim_C5_missing_config_fatal
    (action_space_metadata : String → ActionMetadata)
    (configs : String → AttrResult) (action_id : String)
    (params : String → Option String) (c : String)
    (hc : c ∈ (action_space_metadata action_id).required_configs)
    (hbad : configs c = .missing ∨ configs c = .noneValue) :
    ∃ e c', action action_space_metadata configs action_id params =
        .error e ∧
      config_loop configs
        (action_space_metadata action_id).required_configs params =
        .error e ∧
      c' ∈ (action_space_metadata action_id).required_configs ∧
      (configs c' = .missing ∨ configs c' = .noneValue) ∧
      names_key e c' := by
  obtain ⟨e, c', he, hc'', hbad', hn⟩ :=
    config_loop_bad_key configs
      (action_space_metadata action_id).required_configs params c hc hbad
  exact ⟨e, c', by simp [action, he], he, hc'', hbad', hn⟩

/-- Concrete fixtures for the resolver claims: one action whose metadata
requires the key `openai_key`, and a configuration in which that key has no
value. -/
def sampleMetadata : String → ActionMetadata := fun _ =>
  { required_configs := ["openai_key"] }

def sampleConfigs : String → AttrResult := fun k =>
  if k = "openai_key" then .noneValue else .missing

def emptyParams : String → Option String := fun _ => none

/-- Witness for C5: with `openai_key` required and unset, `action` raises
the `KeyError` naming it. -/
theorem claim_C5_missing_config_fatal_witness :
    ∃ e c', action sampleMetadata sampleConfigs
        "swarmstar/actions/reasoning/decompose_directive" emptyParams =
        .error e ∧
      config_loop sampleConfigs
        (sampleMetadata
          "swarmstar/actions/reasoning/decompose_directive").required_configs
        emptyParams = .error e ∧
      c' ∈ (sampleMetadata
        "swarmstar/actions/reasoning/decompose_directive").required_configs ∧
      (sampleConfigs c' = .missing ∨ sampleConfigs c' = .noneValue) ∧
      names_key e c' :=
  claim_C5_missing_config_fatal sampleMetadata sampleConfigs
    "swarmstar/actions/reasoning/decompose_directive" emptyParams
    "openai_key" (by simp [sampleMetadata])
    (Or.inr (by simp [sampleConfigs]))

/-- C10: whenever the required-configuration check passes, `action` raises
`UnboundLocalError` at line 28 — the read of the never-assigned local
`action_type` — so the resolver can never successfully invoke any entry
point: no input at all makes it return normally. -/
theorem claim_C10_unbound_local
    (action_space_metadata : String → ActionMetadata)
    (configs : String → AttrResult) (action_id : String)
    (params : String → Option String)
    (p : String → Option String)
    (hok : config_loop configs
      (action_space_metadata action_id).required_configs params = .ok p) :
    action action_space_metadata configs action_id params =
        .error (.unboundLocalError
          "local variable action_type referenced before assignment") ∧
      ∀ (m : String → ActionMetadata) (cf : String → AttrResult)
        (aid : String) (pr r : String → Option String),
        action m cf aid pr ≠ .ok r := by
  constructor
  · simp [action, hok]
  · intro m cf aid pr r hcontra
    unfold action at hcontra
    cases h : config_loop cf (m aid).required_configs pr with
    | error e => rw [h] at hcontra; exact absurd hcontra (by simp)
    | ok q => rw [h] at hcontra; exact absurd hcontra (by simp)

/-- Witness for C10: with the single required key present, `action` raises
the `UnboundLocalError`. -/
theorem claim_C10_unbound_local_witness :
    action sampleMetadata (fun _ => .value "sk-123")
        "swarmstar/actions/reasoning/decompose_directive" emptyParams =
        .error (.unboundLocalError
          "local variable action_type referenced before assignment") ∧
      ∀ (m : String → ActionMetadata) (cf : String → AttrResult)
        (aid : String) (pr r : String → Option String),
        action m cf aid pr ≠ .ok r :=
  claim_C10_unbound_local sampleMetadata (fun _ => .value "sk-123")
    "swarmstar/actions/reasoning/decompose_directive" emptyParams
    (fun k => if k = "openai_key" then some "sk-123" else none)
    (by simp [sampleMetadata, config_loop, emptyParams])

/-- C6, the claim as written is false on the code: an action id whose module
lacks a `main` entry point never produces a not-found error naming the id.
The resolver raises `UnboundLocalError` at line 28 before the import, and
even the unreachable line-35 branch raises `AttributeError` with the fixed
message `No main function found in the script`, which does not mention the
action id. -/
theorem claim_C6_counterexample :
    action sampleMetadata (fun _ => .value "sk-123")
        "aga_swarm/actions/data/file_operations/rename_file" emptyParams =
        .error (.unboundLocalError
          "local variable action_type referenced before assignment") ∧
      no_main_function_error.msg = "No main function found in the script" := by
  constructor
  · simp [action, sampleMetadata, config_loop]
  · rfl

/-- C6 (amended): for every action id — with or without a `main` entry point
— once the configuration check passes the resolver raises
`UnboundLocalError`, never an `AttributeError`; the not-found branch of
line 35 is unreachable, and its message is a constant that does not name
the action id. -/
theorem claim_C6_no_entry_point_error
    (action_space_metadata : String → ActionMetadata)
    (configs : String → AttrResult) (action_id : String)
    (params : String → Option String)
    (p : String → Option String)
    (hok : config_loop configs
      (action_space_metadata action_id).required_configs params = .ok p) :
    action action_space_metadata configs action_id params =
        .error (.unboundLocalError
          "local variable action_type referenced before assignment") ∧
      (∀ m, action action_space_metadata configs action_id params ≠
        .error (.attributeError m)) ∧
      no_main_function_error.msg = "No main function found in the script" := by
  have h1 : action action_space_metadata configs action_id params =
      .error (.unboundLocalError
        "local variable action_type referenced before assignment") := by
    simp [action, hok]
  exact ⟨h1, fun m hcontra => by rw [h1] at hcontra; exact absurd hcontra (by simp),
    rfl⟩

/-- Witness for C6 (amended). -/
theorem claim_C6_no_entry_point_error_witness :
    action sampleMetadata (fun _ => .value "sk-123")
        "aga_swarm/actions/data/file_operations/rename_file" emptyParams =
        .error (.unboundLocalError
          "local variable action_type referenced before assignment") ∧
      (∀ m, action sampleMetadata (fun _ => .value "sk-123")
        "aga_swarm/actions/data/file_operations/rename_file" emptyParams ≠
        .error (.attributeError m)) ∧
      no_main_function_error.msg = "No main function found in the script" :=
  claim_C6_no_entry_point_error sampleMetadata (fun _ => .value "sk-123")
    "aga_swarm/actions/data/file_operations/rename_file" emptyParams
    (fun k => if k = "openai_key" then some "sk-123" else none)
    (by simp [sampleMetadata, config_loop, emptyParams])

/-! ## TerminationOperation — `src/swarmstar/types/swarm_operations.py`

The pydantic model (lines 57–62): `id` and `operation_type` have defaults;
`terminator_node_id` and `target_node_id` are required; `context` defaults
to `None`.  Construction validates keyword arguments: a missing required
field is a `ValidationError` listing the field names; keyword arguments
that are not fields of the model (such as `node_id`) are ignored under
pydantic's default extra-field policy. -/

structure TerminationOperation where
  id : String
  operation_type : String
  terminator_node_id : String
  target_node_id : String
  context : Option String
  deriving DecidableEq, Repr

/-- Pydantic construction of a `TerminationOperation` from keyword
arguments.  `gen_id` is the value the `generate_uuid` default factory
produces for `id` when none is passed; the error is the list of required
fields that were not supplied. -/
def TerminationOperation.validate (gen_id : String)
    (terminator_node_id target_node_id : Option String)
    (context : Option String) :
    Except (List String) TerminationOperation :=
  match terminator_node_id, target_node_id with
  | some t, some g =>
    .ok { id := gen_id,
          operation_type := "terminate",
          terminator_node_id := t,
          target_node_id := g,
          context := context }
  | _, _ =>
    .error ((if terminator_node_id.isNone then ["terminator_node_id"] else [])
      ++ (if target_node_id.isNone then ["target_node_id"] else []))

/-- The construction in `terminate_conversation`
(`ask_user_questions.py` lines 345–348):
`TerminationOperation(node_id=..., terminator_node_id=...)` — `node_id` is
not a field of the model (ignored), `target_node_id` is not supplied. -/
def terminate_conversation_op (node_id : String) (gen_id : String) :
    Except (List String) TerminationOperation :=
  TerminationOperation.validate gen_id (some node_id) none none

/-- The construction in `test_simple_termination`
(`test_simple_termination.py` lines 41–43): `TerminationOperation(node_id=...)`
— neither required field is supplied. -/
def test_simple_termination_op (gen_id : String) :
    Except (List String) TerminationOperation :=
  TerminationOperation.validate gen_id none none none

/-- C7: the `TerminationOperation` schema does require both
`terminator_node_id` and `target_node_id` (validation with both present
succeeds and stores them; omitting `target_node_id` is always rejected
naming that field), but the constructions the code actually performs do
not supply them: `terminate_conversation` omits `target_node_id` and is
rejected, and the unit test omits both. -/
theorem claim_C7_termination_required_fields (node_id gen_id : String) :
    terminate_conversation_op node_id gen_id =
        Except.error ["target_node_id"] ∧
      test_simple_termination_op gen_id =
        Except.error ["terminator_node_id", "target_node_id"] ∧
      (∀ t g ctx, TerminationOperation.validate gen_id (some t) (some g) ctx =
        Except.ok { id := gen_id,
                    operation_type := "terminate",
                    terminator_node_id := t,
                    target_node_id := g,
                    context := ctx }) ∧
      (∀ t ctx, ∀ e, TerminationOperation.validate gen_id t none ctx =
        Except.error e → "target_node_id" ∈ e) := by
  refine ⟨rfl, rfl, fun t g ctx => rfl, fun t ctx e he => ?_⟩
  cases t with
  | none =>
    have he' : (Except.error ["terminator_node_id", "target_node_id"] :
        Except (List String) TerminationOperation) = Except.error e := he
    injection he' with h
    simp [← h]
  | some t' =>
    have he' : (Except.error ["target_node_id"] :
        Except (List String) TerminationOperation) = Except.error e := he
    injection he' with h
    simp [← h]

/-! ## Key-value retrieval — `src/scripts/create_sqlite3_db.py`

`retrieve_value_from_sqlite3` (lines 28–36) runs
`value = cursor.fetchone()[0]`.  For a key with no row, `fetchone()`
returns `None`, subscripting it raises `TypeError`, and the `except`
clause re-raises it as
`ValueError(f'Failed to retrieve value from SQLite3: {str(e)}')`.
The kv table is modelled as a partial map from key to value. -/

def retrieve_value_from_sqlite3 (kv_store : String → Option String)
    (key : String) : Except PyError String :=
  match kv_store key with
  | some v => .ok v
  | none => .error (.valueError
      ("Failed to retrieve value from SQLite3: " ++
        "NoneType object is not subscriptable"))

/-- C8, the claim as written is false on the code: an absent id does not
produce a record-or-`None` result — the lookup raises `ValueError`. -/
theorem claim_C8_counterexample :
    retrieve_value_from_sqlite3 (fun _ => none) "missing_key" =
      Except.error (.valueError
        ("Failed to retrieve value from SQLite3: " ++
          "NoneType object is not subscriptable")) := rfl

/-- C8 (amended): for every id not present in the key-value store,
`retrieve_value_from_sqlite3` raises the wrapped `ValueError` rather than
returning a `None` result; present ids return their stored value. -/
theorem claim_C8_missing_id_raises (kv_store : String → Option String)
    (key : String) (h : kv_store key = none) :
    retrieve_value_from_sqlite3 kv_store key =
        Except.error (.valueError
          ("Failed to retrieve value from SQLite3: " ++
            "NoneType object is not subscriptable")) ∧
      (∀ v, retrieve_value_from_sqlite3 kv_store key ≠ Except.ok v) ∧
      (∀ k v, kv_store k = some v →
        retrieve_value_from_sqlite3 kv_store k = Except.ok v) := by
  have h1 : retrieve_value_from_sqlite3 kv_store key =
      Except.error (.valueError
        ("Failed to retrieve value from SQLite3: " ++
          "NoneType object is not subscriptable")) := by
    simp [retrieve_value_from_sqlite3, h]
  refine ⟨h1, fun v hcontra => by rw [h1] at hcontra; exact absurd hcontra (by simp),
    fun k v hk => by simp [retrieve_value_from_sqlite3, hk]⟩

/-- Witness for C8 (amended): the empty store raises on any key. -/
theorem claim_C8_missing_id_raises_witness :
    retrieve_value_from_sqlite3 (fun _ => none) "absent" =
        Except.error (.valueError
          ("Failed to retrieve value from SQLite3: " ++
            "NoneType object is not subscriptable")) ∧
      (∀ v, retrieve_value_from_sqlite3 (fun _ => none) "absent" ≠
        Except.ok v) ∧
      (∀ k v, (fun _ => (none : Option String)) k = some v →
        retrieve_value_from_sqlite3 (fun _ => none) k = Except.ok v) :=
  claim_C8_missing_id_raises (fun _ => none) "absent" rfl

end SwarmStar
